import Mathlib

/-!
Verification of the `logger` Go package (73ddy-io/logger, file logger.go).

The package keeps three pieces of mutable package state: `logFile *os.File`,
`logger *log.Logger`, and a fixed timestamp format.  We embed that state
shallowly:

* an open `*os.File` is a natural-number handle into a small file-system
  model `FS` that records which handles are open, the byte stream written
  through each handle, and the path each handle was opened at;
* `*log.Logger` created by `log.New(logFile, "", 0)` is the handle its
  writes target (prefix and flags are constants in the source);
* the environment (local clock, pid, and which OS calls fail) is a `World`
  of oracles fixed for a run: `time.Now().Format(timeFormat)` is the string
  `World.now`, `os.Getpid()` is `World.pid`, and `os.MkdirAll`,
  `os.OpenFile` and writes fail exactly where the corresponding oracle says;
* the Go call stack is a `List Frame`; `runtime.Caller skip` follows Go's
  documented convention that skip 0 identifies the function that invokes
  `Caller`, so the stack passed to it starts at that function's own frame.

Machine integers: `LogLevel` is a Go `int`; no arithmetic is ever performed
on it (it is only compared against the constants 0, 1, 2), so overflow
cannot occur and it is embedded as `Int`.
-/

namespace Logger

/-- One stack frame: source file, line, and the fully qualified function
name that `runtime.FuncForPC(pc).Name()` would report for its pc. -/
structure Frame where
  file : String
  line : Nat
  funcName : String
deriving DecidableEq

/-- The environment of a run: formatted local time, process id, and the
failure oracles for directory creation (keyed by directory path), file
open (keyed by file path) and writes (keyed by handle). -/
structure World where
  now : String
  pid : Nat
  mkdirFails : String → Bool
  openFails : String → Bool
  writeFails : Nat → Bool

/-- File-system model: a fresh-handle counter, the set of currently open
handles, the byte stream written through each handle, and the path each
handle was opened at. -/
structure FS where
  nextHandle : Nat
  openh : List Nat
  content : Nat → String
  handlePath : Nat → String

/-- The package-level mutable variables of logger.go: `logFile *os.File`
(`none` models the nil pointer) and `logger *log.Logger` (the handle the
writer created by `log.New` targets; `none` models nil). -/
structure LoggerState where
  logFile : Option Nat
  logger : Option Nat
deriving DecidableEq

/-- The errors the package can return: the wrapped directory-creation
error, the `os.OpenFile` error, and the `os.File.Close` error. -/
inductive GoError where
  | mkdirFailed (dir : String)
  | openFailed (path : String)
  | closeFailed
deriving DecidableEq

/-- Go declaration: `type LogLevel int`. -/
abbrev LogLevel := Int

/-- Constant `INFO LogLevel = iota`, that is 0. -/
def INFO : LogLevel := 0

/-- Constant `WARN`, that is 1. -/
def WARN : LogLevel := 1

/-- Constant `ERROR`, that is 2. -/
def ERROR : LogLevel := 2

/-- Accumulator loop behind `strings.LastIndex(s, c)` for a one-character
separator: `i` is the index of the head of the remaining list in the whole
string, `best` the last index of `c` seen so far (Go's -1 when none). -/
def stringsLastIndexAux (c : Char) : List Char → Int → Int → Int
  | [], _, best => best
  | x :: xs, i, best => stringsLastIndexAux c xs (i + 1) (if x = c then i else best)

/-- Model of `strings.LastIndex(s, c)` for a one-character separator `c`: the index
of the last occurrence of `c` in `s`, or -1 when `c` does not occur. -/
def stringsLastIndex (s : String) (c : Char) : Int :=
  stringsLastIndexAux c s.data 0 (-1)

/-- The shortening `Log` applies to the caller's file (`c` = '/') and to
the caller's function name (`c` = '.'): `strings.LastIndex` followed by
the slice `s[last+1:]` when the separator occurs, the whole string
otherwise. -/
def sliceAfterLast (c : Char) (s : String) : String :=
  let last := stringsLastIndex s c
  if last ≥ 0 then String.mk (s.data.drop (last.toNat + 1)) else s

/-- Model of `filepath.Dir` for slash-separated paths: everything before the final
separator, "." when there is no separator, "/" when the prefix is empty.
(Go additionally runs `Clean` on the result; the claims use the directory
only as the key into the directory-creation oracle, where that is
immaterial.) -/
def filepathDir (path : String) : String :=
  let i := stringsLastIndex path '/'
  if i ≥ 0 then
    let pre := String.mk (path.data.take i.toNat)
    if pre = "" then "/" else pre
  else "."

/-- Model of `runtime.Caller skip` on a stack whose head is the frame of the
function invoking `Caller` (Go: "skip 0 identifying the caller of
Caller").  `none` models `ok = false` (stack too shallow). -/
def runtimeCaller (skip : Nat) (stack : List Frame) : Option Frame :=
  stack.get? skip

/-- The frame `Log` itself occupies while running.  `Log` skips two frames,
so its own frame's contents are never read. -/
def logFrame : Frame := ⟨"logger.go", 80, "logger.Log"⟩

/-- The frame `Info` occupies while running (never read: it sits at skip 1
of the stack `Log` inspects). -/
def infoFrame : Frame := ⟨"logger.go", 131, "logger.Info"⟩

/-- The frame `Warn` occupies while running. -/
def warnFrame : Frame := ⟨"logger.go", 141, "logger.Warn"⟩

/-- The frame `Error` occupies while running. -/
def errorFrame : Frame := ⟨"logger.go", 151, "logger.Error"⟩

/-- The `switch level` of `Log`: "INFO", "WARN", "ERR", and the
initialization value "" for every other level. -/
def levelString (level : LogLevel) : String :=
  if level = INFO then "INFO"
  else if level = WARN then "WARN"
  else if level = ERROR then "ERR"
  else ""

/-- The `fmt.Sprintf("%s [%s] (%d)%s:%d %s - %s", ...)` of `Log`. -/
def formatLogMsg (w : World) (levelStr : String) (shortFile : String)
    (line : Nat) (funcName : String) (message : String) : String :=
  w.now ++ " [" ++ levelStr ++ "] (" ++ toString w.pid ++ ")" ++ shortFile
    ++ ":" ++ toString line ++ " " ++ funcName ++ " - " ++ message

/-- The caller capture and formatting part of `Log`'s body, for a call of
`Log` whose callers (nearest first) are `callers`.  `runtime.Caller(2)`
inspects the stack headed by `Log`'s own frame.  On `ok = false` the
source overwrites `file` with "unknown" and `line` with 0, and
`runtime.FuncForPC` on the zero pc returns nil, whose `Name()` is the
empty string. -/
def renderLine (w : World) (level : LogLevel) (message : String)
    (callers : List Frame) : String :=
  let captured := runtimeCaller 2 (logFrame :: callers)
  let file := match captured with | some fr => fr.file | none => "unknown"
  let line := match captured with | some fr => fr.line | none => 0
  let funcFull := match captured with | some fr => fr.funcName | none => ""
  let shortFile := sliceAfterLast '/' file
  let funcName := sliceAfterLast '.' funcFull
  formatLogMsg w (levelString level) shortFile line funcName message

/-- Model of `logger.Println(msg)` for a `log.Logger` bound to handle `h` with empty
prefix and zero flags: appends `msg` and a terminating newline to the
stream.  A write to a closed handle, or one the environment makes fail, is
an error that `Println` discards, leaving the stream unchanged. -/
def printlnTo (w : World) (fs : FS) (h : Nat) (msg : String) : FS :=
  if h ∈ fs.openh ∧ w.writeFails h = false then
    { fs with content := fun n => if n = h then fs.content h ++ msg ++ "\n" else fs.content n }
  else fs

/-- Function `Log(level, message)` called with call stack `callers` above it
(nearest caller first).  Returns the updated file system; `Log` returns no
error and never modifies the package variables. -/
def Log (w : World) (fs : FS) (st : LoggerState) (level : LogLevel)
    (message : String) (callers : List Frame) : FS :=
  match st.logger with
  | none => fs
  | some h => printlnTo w fs h (renderLine w level message callers)

/-- Function `Info(format, args...)`: `message` stands for the result of
`fmt.Sprintf(format, args...)` (printf interpolation is outside the scope
of the claims).  `Info` calls `Log`, pushing its own frame on the stack. -/
def Info (w : World) (fs : FS) (st : LoggerState) (message : String)
    (callers : List Frame) : FS :=
  Log w fs st INFO message (infoFrame :: callers)

/-- Function `Warn(format, args...)`, with `message` the interpolated result. -/
def Warn (w : World) (fs : FS) (st : LoggerState) (message : String)
    (callers : List Frame) : FS :=
  Log w fs st WARN message (warnFrame :: callers)

/-- Function `Error(format, args...)`, with `message` the interpolated result. -/
def Error (w : World) (fs : FS) (st : LoggerState) (message : String)
    (callers : List Frame) : FS :=
  Log w fs st ERROR message (errorFrame :: callers)

/-- Function `InitLogger(filename)`.  `os.MkdirAll` failure returns the wrapped
error with the package variables untouched.  `logFile, err =
os.OpenFile(...)` assigns both results, so on failure `logFile` becomes
nil while `logger` keeps its previous value.  On success a fresh handle is
opened (append mode: the stream recorded for the new handle starts empty,
the model tracks per-handle streams) and `logger = log.New(logFile, "", 0)`
targets it.  The `fmt.Println("---------")` banners go to stdout and are
not modelled. -/
def InitLogger (w : World) (fs : FS) (st : LoggerState) (filename : String) :
    FS × LoggerState × Option GoError :=
  let dir := filepathDir filename
  if w.mkdirFails dir then
    (fs, st, some (GoError.mkdirFailed dir))
  else if w.openFails filename then
    (fs, { st with logFile := none }, some (GoError.openFailed filename))
  else
    let h := fs.nextHandle
    ({ nextHandle := h + 1,
       openh := h :: fs.openh,
       content := fs.content,
       handlePath := fun n => if n = h then filename else fs.handlePath n },
     { logFile := some h, logger := some h }, none)

/-- Function `Close()`, whose body returns `logFile.Close()` when logFile is
not nil and nil otherwise.
`os.File.Close` succeeds on an open handle and removes it from the open
set; Go documents that it returns an error if it has already been called,
so closing a handle that is no longer open fails.  `Close` does not modify
`logFile` or `logger`. -/
def Close (w : World) (fs : FS) (st : LoggerState) :
    FS × LoggerState × Option GoError :=
  match st.logFile with
  | some h =>
    if h ∈ fs.openh then
      ({ fs with openh := fs.openh.erase h }, st, none)
    else
      (fs, st, some GoError.closeFailed)
  | none => (fs, st, none)

/-- One observable operation against the package. -/
inductive Op where
  | initOp (path : String)
  | closeOp
  | logOp (level : LogLevel) (message : String) (callers : List Frame)

/-- One step of the package: run the operation, discarding returned
errors (reachability does not depend on them). -/
def step (w : World) : FS × LoggerState → Op → FS × LoggerState
  | (fs, st), Op.initOp p => ((InitLogger w fs st p).1, (InitLogger w fs st p).2.1)
  | (fs, st), Op.closeOp => ((Close w fs st).1, (Close w fs st).2.1)
  | (fs, st), Op.logOp lv m cs => (Log w fs st lv m cs, st)

/-- The initial file system: nothing open, nothing written. -/
def fs0 : FS := ⟨0, [], fun _ => "", fun _ => ""⟩

/-- The initial package state: both package variables nil. -/
def st0 : LoggerState := ⟨none, none⟩

/-- The state reached by a sequence of operations from process start. -/
def run (w : World) (ops : List Op) : FS × LoggerState :=
  ops.foldl (step w) (fs0, st0)

/-- A concrete benign world: fixed clock and pid, no OS call fails. -/
def w0 : World :=
  ⟨"2025-01-02 15:04:05", 1234, fun _ => false, fun _ => false, fun _ => false⟩

/-! ### The final-segment reading of the two shortenings

The spec describes both shortenings positionally: the final path segment of
the file (after the last '/'), the final qualifier segment of the function
name (after the last '.').  `finalSegment` renders that wording directly as
the maximal separator-free suffix, and the lemmas below prove the source's
`strings.LastIndex`-and-slice computation equal to it. -/

/-- Spec wording: the final segment of `s` for separator `c` is the maximal
suffix of `s` containing no `c`. -/
def finalSegment (c : Char) (s : String) : String :=
  String.mk ((s.data.reverse.takeWhile (fun x => x != c)).reverse)

/-- Recursive position of the last occurrence of `c`, the specification of
`stringsLastIndexAux`'s accumulator loop. -/
def lastPos (c : Char) : List Char → Option Nat
  | [] => none
  | x :: xs =>
    match lastPos c xs with
    | some k => some (k + 1)
    | none => if x = c then some 0 else none

lemma stringsLastIndexAux_eq (c : Char) :
    ∀ (cs : List Char) (i best : Int),
      stringsLastIndexAux c cs i best =
        (match lastPos c cs with
         | some k => i + k
         | none => best) := by
  intro cs
  induction cs with
  | nil => intro i best; simp [stringsLastIndexAux, lastPos]
  | cons x xs ih =>
    intro i best
    rcases h : lastPos c xs with _ | k
    · by_cases hx : x = c <;>
        simp [stringsLastIndexAux, lastPos, ih, h, hx]
    · simp only [stringsLastIndexAux, lastPos, ih, h]
      push_cast
      ring

lemma lastPos_eq_none_iff (c : Char) :
    ∀ cs : List Char, lastPos c cs = none ↔ c ∉ cs := by
  intro cs
  induction cs with
  | nil => simp [lastPos]
  | cons x xs ih =>
    rcases h : lastPos c xs with _ | k
    · by_cases hx : x = c <;> simp_all [lastPos, eq_comm]
    · simp_all [lastPos]

lemma mem_of_lastPos_some {c : Char} {cs : List Char} {k : Nat}
    (h : lastPos c cs = some k) : c ∈ cs := by
  by_contra hc
  rw [← lastPos_eq_none_iff c cs] at hc
  rw [h] at hc
  exact Option.noConfusion hc

lemma takeWhile_append_all {α : Type} {f : α → Bool} :
    ∀ {l l2 : List α}, (∀ a ∈ l, f a = true) →
      (l ++ l2).takeWhile f = l ++ l2.takeWhile f := by
  intro l
  induction l with
  | nil => intro l2 _; simp
  | cons x xs ih =>
    intro l2 hall
    have hx : f x = true := hall x (List.mem_cons_self x xs)
    simp only [List.cons_append, List.takeWhile_cons, hx, if_true]
    rw [ih fun a ha => hall a (List.mem_cons_of_mem x ha)]

lemma takeWhile_append_stop {α : Type} {f : α → Bool} :
    ∀ {l l2 : List α}, (∃ a ∈ l, f a = false) →
      (l ++ l2).takeWhile f = l.takeWhile f := by
  intro l
  induction l with
  | nil => rintro l2 ⟨a, ha, _⟩; exact absurd ha (List.not_mem_nil a)
  | cons x xs ih =>
    rintro l2 ⟨a, ha, hfa⟩
    by_cases hx : f x = true
    · have hxs : a ∈ xs := by
        rcases List.mem_cons.1 ha with rfl | h
        · rw [hx] at hfa; exact absurd hfa (by simp)
        · exact h
      simp only [List.cons_append, List.takeWhile_cons, hx, if_true]
      rw [ih ⟨a, hxs, hfa⟩]
    · have hx' : f x = false := by revert hx; cases f x <;> simp
      simp [List.takeWhile_cons, hx']

lemma drop_lastPos (c : Char) :
    ∀ cs : List Char,
      (match lastPos c cs with
       | some k => cs.drop (k + 1)
       | none => cs) = (cs.reverse.takeWhile (fun x => x != c)).reverse := by
  intro cs
  induction cs with
  | nil => simp [lastPos]
  | cons x xs ih =>
    rcases h : lastPos c xs with _ | k
    · have hx : c ∉ xs := (lastPos_eq_none_iff c xs).1 h
      have hall : ∀ a ∈ xs.reverse, (a != c) = true := by
        intro a ha
        rw [bne_iff_ne]
        rintro rfl
        exact hx (List.mem_reverse.1 ha)
      by_cases hxc : x = c
      · subst hxc
        simp only [lastPos, h, if_pos rfl]
        rw [List.reverse_cons, takeWhile_append_all hall]
        simp [List.takeWhile_cons, bne_self_eq_false]
      · simp only [lastPos, h, if_neg hxc]
        rw [List.reverse_cons, takeWhile_append_all hall]
        have hfx : (x != c) = true := bne_iff_ne.2 hxc
        simp [List.takeWhile_cons, hfx]
    · have hc : c ∈ xs := mem_of_lastPos_some h
      rw [h] at ih
      simp only [lastPos, h]
      have hstop : (xs.reverse ++ [x]).takeWhile (fun y => y != c)
          = xs.reverse.takeWhile (fun y => y != c) :=
        takeWhile_append_stop ⟨c, List.mem_reverse.2 hc, bne_self_eq_false c⟩
      rw [List.reverse_cons, hstop, ← ih]
      simp [List.drop_succ_cons]

lemma sliceAfterLast_eq_finalSegment (c : Char) (s : String) :
    sliceAfterLast c s = finalSegment c s := by
  have hd := drop_lastPos c s.data
  unfold sliceAfterLast finalSegment stringsLastIndex
  rw [stringsLastIndexAux_eq]
  rcases h : lastPos c s.data with _ | k
  · rw [h] at hd
    simp only [h]
    rw [if_neg (by norm_num)]
    exact congrArg String.mk hd
  · rw [h] at hd
    simp only [h]
    have hk : ((0 : Int) + (k : Int)) ≥ 0 := by positivity
    rw [if_pos hk]
    have hk2 : ((0 : Int) + (k : Int)).toNat = k := by omega
    rw [hk2]
    exact congrArg String.mk hd

/-! ### Behavior of Log -/

lemma Log_of_logger_none (w : World) (fs : FS) (st : LoggerState)
    (level : LogLevel) (msg : String) (callers : List Frame)
    (hl : st.logger = none) :
    Log w fs st level msg callers = fs := by
  unfold Log
  rw [hl]

lemma Log_of_writeFails (w : World) (fs : FS) (st : LoggerState)
    (level : LogLevel) (msg : String) (callers : List Frame) (h : Nat)
    (hl : st.logger = some h) (hw : w.writeFails h = true) :
    Log w fs st level msg callers = fs := by
  unfold Log printlnTo
  rw [hl]
  simp [hw]

lemma Log_of_closed (w : World) (fs : FS) (st : LoggerState)
    (level : LogLevel) (msg : String) (callers : List Frame) (h : Nat)
    (hl : st.logger = some h) (hm : h ∉ fs.openh) :
    Log w fs st level msg callers = fs := by
  unfold Log printlnTo
  rw [hl]
  simp [hm]

lemma Log_content_self (w : World) (fs : FS) (st : LoggerState)
    (level : LogLevel) (msg : String) (callers : List Frame) (h : Nat)
    (hl : st.logger = some h) (hm : h ∈ fs.openh) (hw : w.writeFails h = false) :
    (Log w fs st level msg callers).content h =
      fs.content h ++ renderLine w level msg callers ++ "\n" := by
  unfold Log printlnTo
  rw [hl]
  simp [hm, hw]

lemma Log_content_other (w : World) (fs : FS) (st : LoggerState)
    (level : LogLevel) (msg : String) (callers : List Frame) (h n : Nat)
    (hl : st.logger = some h) (hn : n ≠ h) :
    (Log w fs st level msg callers).content n = fs.content n := by
  unfold Log printlnTo
  rw [hl]
  by_cases hcond : h ∈ fs.openh ∧ w.writeFails h = false
  · simp [hcond, hn]
  · simp [hcond]

lemma runtimeCaller_two_cons (callers : List Frame) :
    runtimeCaller 2 (logFrame :: callers) = callers.get? 1 := by
  cases callers with
  | nil => rfl
  | cons a t =>
    cases t with
    | nil => rfl
    | cons b t2 => rfl

lemma renderLine_cons2 (w : World) (level : LogLevel) (msg : String)
    (c0 c1 : Frame) (rest : List Frame) :
    renderLine w level msg (c0 :: c1 :: rest) =
      formatLogMsg w (levelString level) (sliceAfterLast '/' c1.file) c1.line
        (sliceAfterLast '.' c1.funcName) msg := rfl

lemma renderLine_of_short (w : World) (level : LogLevel) (msg : String)
    (callers : List Frame) (hc : callers.get? 1 = none) :
    renderLine w level msg callers =
      formatLogMsg w (levelString level) "unknown" 0 "" msg := by
  cases callers with
  | nil => rfl
  | cons a t =>
    cases t with
    | nil => rfl
    | cons b t2 => simp at hc

lemma InitLogger_success (w : World) (fs : FS) (st : LoggerState) (filename : String)
    (hm : w.mkdirFails (filepathDir filename) = false)
    (ho : w.openFails filename = false) :
    InitLogger w fs st filename =
      ({ nextHandle := fs.nextHandle + 1,
         openh := fs.nextHandle :: fs.openh,
         content := fs.content,
         handlePath := fun n => if n = fs.nextHandle then filename else fs.handlePath n },
       { logFile := some fs.nextHandle, logger := some fs.nextHandle }, none) := by
  unfold InitLogger
  simp [hm, ho]

/-! ### Claims -/

/-- Claim C7: InitLogger returns an error to the caller if and only if
directory creation or file open fails (the body is a single straight-line
attempt, so nothing is retried); on success it returns no error. -/
theorem C7_init_error_iff (w : World) (fs : FS) (st : LoggerState) (filename : String) :
    (InitLogger w fs st filename).2.2 ≠ none ↔
      (w.mkdirFails (filepathDir filename) = true ∨ w.openFails filename = true) := by
  unfold InitLogger
  by_cases hm : w.mkdirFails (filepathDir filename) <;>
    by_cases ho : w.openFails filename <;>
      simp [hm, ho]

/-- Claim C3: Log, Info, Warn and Error never surface an error — their
embedding returns only the updated file system, mirroring the void Go
functions.  A call before initialization (logger nil) produces no output
and no state change; a call whose underlying write fails (write oracle
failure, or handle no longer open) is swallowed, leaving the file system
untouched. -/
theorem C3_silent_discard (w : World) (fs : FS) (st : LoggerState)
    (level : LogLevel) (msg : String) (callers : List Frame) :
    (st.logger = none →
      Log w fs st level msg callers = fs ∧ Info w fs st msg callers = fs ∧
      Warn w fs st msg callers = fs ∧ Error w fs st msg callers = fs) ∧
    (∀ h, st.logger = some h → w.writeFails h = true →
      Log w fs st level msg callers = fs ∧ Info w fs st msg callers = fs ∧
      Warn w fs st msg callers = fs ∧ Error w fs st msg callers = fs) ∧
    (∀ h, st.logger = some h → h ∉ fs.openh →
      Log w fs st level msg callers = fs ∧ Info w fs st msg callers = fs ∧
      Warn w fs st msg callers = fs ∧ Error w fs st msg callers = fs) := by
  refine ⟨fun hl => ?_, fun h hl hw => ?_, fun h hl hm => ?_⟩ <;>
    unfold Info Warn Error <;>
    refine ⟨?_, ?_, ?_, ?_⟩ <;>
    first
      | exact Log_of_logger_none _ _ _ _ _ _ hl
      | exact Log_of_writeFails _ _ _ _ _ _ _ hl hw
      | exact Log_of_closed _ _ _ _ _ _ _ hl hm

/-- Witness for C3: before any initialization (the initial state has a nil
logger), all four entry points leave the file system untouched. -/
theorem C3_witness :
    Log w0 fs0 st0 INFO "boot" [] = fs0 ∧ Info w0 fs0 st0 "boot" [] = fs0 ∧
    Warn w0 fs0 st0 "boot" [] = fs0 ∧ Error w0 fs0 st0 "boot" [] = fs0 :=
  (C3_silent_discard w0 fs0 st0 INFO "boot" []).1 rfl

lemma init_logger_eq (w : World) (fs : FS) (st : LoggerState) (filename : String)
    (hm : w.mkdirFails (filepathDir filename) = false)
    (ho : w.openFails filename = false) :
    (InitLogger w fs st filename).2.1.logger = some fs.nextHandle := by
  rw [InitLogger_success w fs st filename hm ho]

lemma init_mem (w : World) (fs : FS) (st : LoggerState) (filename : String)
    (hm : w.mkdirFails (filepathDir filename) = false)
    (ho : w.openFails filename = false) :
    fs.nextHandle ∈ (InitLogger w fs st filename).1.openh := by
  rw [InitLogger_success w fs st filename hm ho]
  exact List.mem_cons_self _ _

lemma init_content (w : World) (fs : FS) (st : LoggerState) (filename : String)
    (hm : w.mkdirFails (filepathDir filename) = false)
    (ho : w.openFails filename = false) :
    (InitLogger w fs st filename).1.content = fs.content := by
  rw [InitLogger_success w fs st filename hm ho]

lemma init_err (w : World) (fs : FS) (st : LoggerState) (filename : String)
    (hm : w.mkdirFails (filepathDir filename) = false)
    (ho : w.openFails filename = false) :
    (InitLogger w fs st filename).2.2 = none := by
  rw [InitLogger_success w fs st filename hm ho]

/-- Claim C2: after a successful Initialize (with the underlying write not
failing), calling Info, Warn or Error appends to the newly opened handle
exactly one newline-terminated line of the documented shape — timestamp,
bracketed level tag, parenthesized pid, shortfile:line, func, " - ",
message — with level tag "INFO", "WARN" and "ERR" respectively; the caller
fields come from the frame that called the entry point. -/
theorem C2_level_tag_lines (w : World) (fs : FS) (st : LoggerState)
    (filename msg : String) (c : Frame) (rest : List Frame)
    (hm : w.mkdirFails (filepathDir filename) = false)
    (ho : w.openFails filename = false)
    (hw : w.writeFails fs.nextHandle = false) :
    (InitLogger w fs st filename).2.2 = none ∧
    (Info w (InitLogger w fs st filename).1 (InitLogger w fs st filename).2.1
        msg (c :: rest)).content fs.nextHandle =
      fs.content fs.nextHandle ++
        formatLogMsg w "INFO" (sliceAfterLast '/' c.file) c.line
          (sliceAfterLast '.' c.funcName) msg ++ "\n" ∧
    (Warn w (InitLogger w fs st filename).1 (InitLogger w fs st filename).2.1
        msg (c :: rest)).content fs.nextHandle =
      fs.content fs.nextHandle ++
        formatLogMsg w "WARN" (sliceAfterLast '/' c.file) c.line
          (sliceAfterLast '.' c.funcName) msg ++ "\n" ∧
    (Error w (InitLogger w fs st filename).1 (InitLogger w fs st filename).2.1
        msg (c :: rest)).content fs.nextHandle =
      fs.content fs.nextHandle ++
        formatLogMsg w "ERR" (sliceAfterLast '/' c.file) c.line
          (sliceAfterLast '.' c.funcName) msg ++ "\n" := by
  refine ⟨init_err w fs st filename hm ho, ?_, ?_, ?_⟩
  · unfold Info
    rw [Log_content_self w (InitLogger w fs st filename).1
          (InitLogger w fs st filename).2.1 INFO msg (infoFrame :: c :: rest)
          fs.nextHandle (init_logger_eq w fs st filename hm ho)
          (init_mem w fs st filename hm ho) hw,
        renderLine_cons2, init_content w fs st filename hm ho]
    rfl
  · unfold Warn
    rw [Log_content_self w (InitLogger w fs st filename).1
          (InitLogger w fs st filename).2.1 WARN msg (warnFrame :: c :: rest)
          fs.nextHandle (init_logger_eq w fs st filename hm ho)
          (init_mem w fs st filename hm ho) hw,
        renderLine_cons2, init_content w fs st filename hm ho]
    rfl
  · unfold Error
    rw [Log_content_self w (InitLogger w fs st filename).1
          (InitLogger w fs st filename).2.1 ERROR msg (errorFrame :: c :: rest)
          fs.nextHandle (init_logger_eq w fs st filename hm ho)
          (init_mem w fs st filename hm ho) hw,
        renderLine_cons2, init_content w fs st filename hm ho]
    rfl

/-- A concrete caller frame used by the witnesses. -/
def cMain : Frame := ⟨"/home/user/project/main.go", 42, "main.main"⟩

/-- Witness for C2 at a concrete initialization and caller. -/
theorem C2_witness :
    (InitLogger w0 fs0 st0 "logs/app.log").2.2 = none ∧
    (Info w0 (InitLogger w0 fs0 st0 "logs/app.log").1
        (InitLogger w0 fs0 st0 "logs/app.log").2.1 "hello" [cMain]).content fs0.nextHandle =
      fs0.content fs0.nextHandle ++
        formatLogMsg w0 "INFO" (sliceAfterLast '/' cMain.file) cMain.line
          (sliceAfterLast '.' cMain.funcName) "hello" ++ "\n" ∧
    (Warn w0 (InitLogger w0 fs0 st0 "logs/app.log").1
        (InitLogger w0 fs0 st0 "logs/app.log").2.1 "hello" [cMain]).content fs0.nextHandle =
      fs0.content fs0.nextHandle ++
        formatLogMsg w0 "WARN" (sliceAfterLast '/' cMain.file) cMain.line
          (sliceAfterLast '.' cMain.funcName) "hello" ++ "\n" ∧
    (Error w0 (InitLogger w0 fs0 st0 "logs/app.log").1
        (InitLogger w0 fs0 st0 "logs/app.log").2.1 "hello" [cMain]).content fs0.nextHandle =
      fs0.content fs0.nextHandle ++
        formatLogMsg w0 "ERR" (sliceAfterLast '/' cMain.file) cMain.line
          (sliceAfterLast '.' cMain.funcName) "hello" ++ "\n" :=
  C2_level_tag_lines w0 fs0 st0 "logs/app.log" "hello" cMain [] rfl rfl rfl

/-- Claim C8: in every line Log writes, the shortfile field is the final
path segment of the captured caller's file (the maximal '/'-free suffix —
`finalSegment`, proved equal to the source's LastIndex-and-slice), the
func field is the final qualifier segment of the captured function name
(the maximal '.'-free suffix), and when caller information cannot be
captured the line carries line number 0 paired with file name "unknown"
(with an empty function name). -/
theorem C8_caller_fields (w : World) (fs : FS) (st : LoggerState)
    (level : LogLevel) (msg : String) (callers : List Frame) (h : Nat)
    (hl : st.logger = some h) (hmem : h ∈ fs.openh) (hw : w.writeFails h = false) :
    (∀ fr, runtimeCaller 2 (logFrame :: callers) = some fr →
      (Log w fs st level msg callers).content h =
        fs.content h ++
          formatLogMsg w (levelString level) (finalSegment '/' fr.file) fr.line
            (finalSegment '.' fr.funcName) msg ++ "\n") ∧
    (runtimeCaller 2 (logFrame :: callers) = none →
      (Log w fs st level msg callers).content h =
        fs.content h ++
          formatLogMsg w (levelString level) "unknown" 0 "" msg ++ "\n") := by
  constructor
  · intro fr hfr
    rw [Log_content_self w fs st level msg callers h hl hmem hw]
    have hr : renderLine w level msg callers =
        formatLogMsg w (levelString level) (sliceAfterLast '/' fr.file) fr.line
          (sliceAfterLast '.' fr.funcName) msg := by
      unfold renderLine
      rw [hfr]
    rw [hr, sliceAfterLast_eq_finalSegment '/' fr.file,
        sliceAfterLast_eq_finalSegment '.' fr.funcName]
  · intro hfr
    rw [Log_content_self w fs st level msg callers h hl hmem hw]
    rw [renderLine_of_short w level msg callers
          (by rw [← runtimeCaller_two_cons]; exact hfr)]

/-- A file system with one open handle 0 and nothing written, as left by
one successful initialization. -/
def fsOpen : FS := ⟨1, [0], fun _ => "", fun _ => ""⟩

/-- The package state referencing handle 0, as left by one successful
initialization. -/
def stOpen : LoggerState := ⟨some 0, some 0⟩

/-- Witness for C8: both the captured case and the too-shallow case at
concrete inputs. -/
theorem C8_witness :
    ((Log w0 fsOpen stOpen INFO "m" [cMain, cMain]).content 0 =
      fsOpen.content 0 ++
        formatLogMsg w0 (levelString INFO) (finalSegment '/' cMain.file) cMain.line
          (finalSegment '.' cMain.funcName) "m" ++ "\n") ∧
    ((Log w0 fsOpen stOpen INFO "m" []).content 0 =
      fsOpen.content 0 ++
        formatLogMsg w0 (levelString INFO) "unknown" 0 "" "m" ++ "\n") :=
  ⟨(C8_caller_fields w0 fsOpen stOpen INFO "m" [cMain, cMain] 0 rfl (by decide) rfl).1
      cMain rfl,
   (C8_caller_fields w0 fsOpen stOpen INFO "m" [] 0 rfl (by decide) rfl).2 rfl⟩

/-- Claim C9: a LogLevel outside INFO, WARN, ERROR still produces the full
formatted line after successful initialization; the switch leaves the
level tag at its initialization value "", so the bracketed field renders
as "[]" (the format places the tag between "[" and "]"). -/
theorem C9_unknown_level (w : World) (fs : FS) (st : LoggerState)
    (level : LogLevel) (msg : String) (c0 c1 : Frame) (rest : List Frame) (h : Nat)
    (hl : st.logger = some h) (hmem : h ∈ fs.openh) (hw : w.writeFails h = false)
    (h0 : level ≠ INFO) (h1 : level ≠ WARN) (h2 : level ≠ ERROR) :
    levelString level = "" ∧
    (Log w fs st level msg (c0 :: c1 :: rest)).content h =
      fs.content h ++
        formatLogMsg w "" (sliceAfterLast '/' c1.file) c1.line
          (sliceAfterLast '.' c1.funcName) msg ++ "\n" := by
  have hstr : levelString level = "" := by
    unfold levelString
    rw [if_neg h0, if_neg h1, if_neg h2]
  refine ⟨hstr, ?_⟩
  rw [Log_content_self w fs st level msg (c0 :: c1 :: rest) h hl hmem hw,
      renderLine_cons2, hstr]

/-- Witness for C9 at the concrete out-of-range level 3. -/
theorem C9_witness :
    levelString 3 = "" ∧
    (Log w0 fsOpen stOpen 3 "m" [cMain, cMain]).content 0 =
      fsOpen.content 0 ++
        formatLogMsg w0 "" (sliceAfterLast '/' cMain.file) cMain.line
          (sliceAfterLast '.' cMain.funcName) "m" ++ "\n" :=
  C9_unknown_level w0 fsOpen stOpen 3 "m" cMain cMain [] 0 rfl (by decide) rfl
    (by decide) (by decide) (by decide)

/-- The frame of the function that calls Log directly in the C1
counterexample. -/
def frA : Frame := ⟨"alpha.go", 10, "main.alpha"⟩

/-- The frame of that function's own caller. -/
def frB : Frame := ⟨"beta.go", 20, "main.beta"⟩

/-- Counterexample for claim C1: with handle 0 open and logger bound to it,
the function at frame frA calls Log directly (so the stack above Log is
[frA, frB]).  The written line renders frB — the caller of Log's immediate
caller — and differs from the line the immediate caller frA would have
produced, refuting that a direct call to Log captures the immediate
caller's file, line and function. -/
theorem C1_counterexample :
    (Log w0 fsOpen stOpen INFO "m" [frA, frB]).content 0 =
      "2025-01-02 15:04:05 [INFO] (1234)beta.go:20 beta - m\n" ∧
    fsOpen.content 0 ++
        formatLogMsg w0 "INFO" (sliceAfterLast '/' frA.file) frA.line
          (sliceAfterLast '.' frA.funcName) "m" ++ "\n" =
      "2025-01-02 15:04:05 [INFO] (1234)alpha.go:10 alpha - m\n" ∧
    "2025-01-02 15:04:05 [INFO] (1234)beta.go:20 beta - m\n" ≠
      "2025-01-02 15:04:05 [INFO] (1234)alpha.go:10 alpha - m\n" := by
  decide

/-- Claim C1 (amended): through Info, Warn or Error the captured frame is
the code that called the convenience entry point (each wrapper counts as
exactly one intermediate frame); a direct call to Log, however, captures
the frame two levels above Log — the caller of Log's immediate caller —
not the immediate caller itself, because runtime.Caller(2) counts from
Log's own frame. -/
theorem C1_caller_capture (w : World) (fs : FS) (st : LoggerState)
    (msg : String) (c : Frame) (rest : List Frame) (h : Nat)
    (hl : st.logger = some h) (hmem : h ∈ fs.openh) (hw : w.writeFails h = false) :
    ((Info w fs st msg (c :: rest)).content h =
      fs.content h ++
        formatLogMsg w "INFO" (sliceAfterLast '/' c.file) c.line
          (sliceAfterLast '.' c.funcName) msg ++ "\n") ∧
    ((Warn w fs st msg (c :: rest)).content h =
      fs.content h ++
        formatLogMsg w "WARN" (sliceAfterLast '/' c.file) c.line
          (sliceAfterLast '.' c.funcName) msg ++ "\n") ∧
    ((Error w fs st msg (c :: rest)).content h =
      fs.content h ++
        formatLogMsg w "ERR" (sliceAfterLast '/' c.file) c.line
          (sliceAfterLast '.' c.funcName) msg ++ "\n") ∧
    (∀ (level : LogLevel) (c2 : Frame) (rest2 : List Frame),
      (Log w fs st level msg (c :: c2 :: rest2)).content h =
        fs.content h ++
          formatLogMsg w (levelString level) (sliceAfterLast '/' c2.file) c2.line
            (sliceAfterLast '.' c2.funcName) msg ++ "\n") := by
  refine ⟨?_, ?_, ?_, ?_⟩
  · unfold Info
    rw [Log_content_self w fs st INFO msg (infoFrame :: c :: rest) h hl hmem hw,
        renderLine_cons2]
    rfl
  · unfold Warn
    rw [Log_content_self w fs st WARN msg (warnFrame :: c :: rest) h hl hmem hw,
        renderLine_cons2]
    rfl
  · unfold Error
    rw [Log_content_self w fs st ERROR msg (errorFrame :: c :: rest) h hl hmem hw,
        renderLine_cons2]
    rfl
  · intro level c2 rest2
    rw [Log_content_self w fs st level msg (c :: c2 :: rest2) h hl hmem hw,
        renderLine_cons2]

/-- Witness for C1 (amended): Info from frame frA reports frA; a direct
Log call from frA (stack [frA, frB]) reports frB. -/
theorem C1_witness :
    ((Info w0 fsOpen stOpen "m" [frA]).content 0 =
      fsOpen.content 0 ++
        formatLogMsg w0 "INFO" (sliceAfterLast '/' frA.file) frA.line
          (sliceAfterLast '.' frA.funcName) "m" ++ "\n") ∧
    ((Log w0 fsOpen stOpen INFO "m" [frA, frB]).content 0 =
      fsOpen.content 0 ++
        formatLogMsg w0 (levelString INFO) (sliceAfterLast '/' frB.file) frB.line
          (sliceAfterLast '.' frB.funcName) "m" ++ "\n") :=
  ⟨(C1_caller_capture w0 fsOpen stOpen "m" frA [] 0 rfl (by decide) rfl).1,
   (C1_caller_capture w0 fsOpen stOpen "m" frA [] 0 rfl (by decide) rfl).2.2.2
      INFO frB []⟩

/-- Counterexample for claim C4: initialize successfully, then Close.  The
package variables still reference handle 0 (the facility is not reset to
the uninitialized state), and a second Close re-closes the already-closed
handle and returns an error instead of succeeding as a no-op. -/
theorem C4_counterexample :
    ((run w0 [Op.initOp "logs/app.log", Op.closeOp]).2.logFile = some 0) ∧
    ((run w0 [Op.initOp "logs/app.log", Op.closeOp]).2.logger = some 0) ∧
    ((Close w0 (run w0 [Op.initOp "logs/app.log", Op.closeOp]).1
        (run w0 [Op.initOp "logs/app.log", Op.closeOp]).2).2.2 =
      some GoError.closeFailed) := by
  decide

/-- Claim C4 (amended): when logFile references an open handle, Close
closes it and succeeds, and when logFile is nil Close is a successful
no-op; but Close resets neither logFile nor logger, so the facility does
not return to the uninitialized state, and a second Close re-closes the
now-closed handle and returns an error rather than succeeding as a
no-op. -/
theorem C4_close_not_idempotent (w : World) (fs : FS) (st : LoggerState) (h : Nat)
    (hf : st.logFile = some h) (hmem : h ∈ fs.openh) (hnd : fs.openh.Nodup) :
    (Close w fs st).2.2 = none ∧
    (Close w fs st).2.1 = st ∧
    h ∉ (Close w fs st).1.openh ∧
    (Close w (Close w fs st).1 (Close w fs st).2.1).2.2 = some GoError.closeFailed ∧
    (∀ fs2 st2, st2.logFile = none → Close w fs2 st2 = (fs2, st2, none)) := by
  have hC : Close w fs st = ({ fs with openh := fs.openh.erase h }, st, none) := by
    unfold Close
    rw [hf]
    simp [hmem]
  have hne : h ∉ fs.openh.erase h := fun hcontra =>
    ((hnd.mem_erase_iff).1 hcontra).1 rfl
  refine ⟨by rw [hC], by rw [hC], by rw [hC]; exact hne, ?_, ?_⟩
  · rw [hC]
    unfold Close
    rw [hf]
    simp [hne]
  · intro fs2 st2 hn2
    unfold Close
    rw [hn2]

/-- Witness for C4 (amended) at the state left by one successful
initialization. -/
theorem C4_witness :
    (Close w0 fsOpen stOpen).2.2 = none ∧
    (Close w0 fsOpen stOpen).2.1 = stOpen ∧
    0 ∉ (Close w0 fsOpen stOpen).1.openh ∧
    (Close w0 (Close w0 fsOpen stOpen).1 (Close w0 fsOpen stOpen).2.1).2.2 =
      some GoError.closeFailed ∧
    (∀ fs2 st2, st2.logFile = none → Close w0 fs2 st2 = (fs2, st2, none)) :=
  C4_close_not_idempotent w0 fsOpen stOpen 0 rfl (by decide) (by decide)

/-- Counterexample for claim C5: initializing twice in a benign world
reaches a state with two open handles — the first one leaks — so "at most
one output handle is open at a time" fails on reachable states. -/
theorem C5_counterexample :
    ¬ (∀ ops : List Op, (run w0 ops).1.openh.length ≤ 1) := fun hall =>
  absurd (hall [Op.initOp "a/f.log", Op.initOp "b/g.log"]) (by decide)

/-- Claim C5 (amended): the facility references at most one handle at a
time — a successful Initialize points logFile and logger at the single
fresh handle — but it closes nothing: every previously open handle stays
open, so after a re-initialization more than one handle can be open at
once (the prior handle leaks). -/
theorem C5_single_reference (w : World) (fs : FS) (st : LoggerState) (filename : String)
    (hm : w.mkdirFails (filepathDir filename) = false)
    (ho : w.openFails filename = false) :
    (InitLogger w fs st filename).1.openh = fs.nextHandle :: fs.openh ∧
    (InitLogger w fs st filename).2.1.logFile = some fs.nextHandle ∧
    (InitLogger w fs st filename).2.1.logger = some fs.nextHandle := by
  rw [InitLogger_success w fs st filename hm ho]
  exact ⟨rfl, rfl, rfl⟩

/-- Witness for C5 (amended): re-initializing on top of one open handle
leaves both handles open while the facility references only the new
one. -/
theorem C5_witness :
    (InitLogger w0 fsOpen stOpen "b/g.log").1.openh = fsOpen.nextHandle :: fsOpen.openh ∧
    (InitLogger w0 fsOpen stOpen "b/g.log").2.1.logFile = some fsOpen.nextHandle ∧
    (InitLogger w0 fsOpen stOpen "b/g.log").2.1.logger = some fsOpen.nextHandle :=
  C5_single_reference w0 fsOpen stOpen "b/g.log" rfl rfl

/-- Claim C6: a successful Initialize while a handle is already held makes
both package variables reference the fresh handle, leaves the old handle
open (it is not closed first), records the new path for the fresh handle,
and subsequent logging writes only to the newly opened file: a logging
call leaves the stream of every other handle — the old one included —
unchanged, while the fresh handle receives the line whenever the write
does not fail. -/
theorem C6_handle_replacement (w : World) (fs : FS) (st : LoggerState)
    (h0 : Nat) (filename : String)
    (hf : st.logFile = some h0) (hl : st.logger = some h0)
    (hm0 : h0 ∈ fs.openh) (hlt : h0 < fs.nextHandle)
    (hm : w.mkdirFails (filepathDir filename) = false)
    (ho : w.openFails filename = false) :
    (InitLogger w fs st filename).2.2 = none ∧
    (InitLogger w fs st filename).2.1.logFile = some fs.nextHandle ∧
    (InitLogger w fs st filename).2.1.logger = some fs.nextHandle ∧
    fs.nextHandle ≠ h0 ∧
    h0 ∈ (InitLogger w fs st filename).1.openh ∧
    (InitLogger w fs st filename).1.handlePath fs.nextHandle = filename ∧
    (∀ (level : LogLevel) (msg : String) (callers : List Frame) (n : Nat),
      n ≠ fs.nextHandle →
      (Log w (InitLogger w fs st filename).1 (InitLogger w fs st filename).2.1
          level msg callers).content n =
        (InitLogger w fs st filename).1.content n) ∧
    (∀ (level : LogLevel) (msg : String) (callers : List Frame),
      w.writeFails fs.nextHandle = false →
      (Log w (InitLogger w fs st filename).1 (InitLogger w fs st filename).2.1
          level msg callers).content fs.nextHandle =
        (InitLogger w fs st filename).1.content fs.nextHandle ++
          renderLine w level msg callers ++ "\n") := by
  refine ⟨init_err w fs st filename hm ho, ?_, init_logger_eq w fs st filename hm ho,
    by omega, ?_, ?_, ?_, ?_⟩
  · rw [InitLogger_success w fs st filename hm ho]
  · rw [InitLogger_success w fs st filename hm ho]
    exact List.mem_cons_of_mem _ hm0
  · rw [InitLogger_success w fs st filename hm ho]
    simp
  · intro level msg callers n hn
    exact Log_content_other w (InitLogger w fs st filename).1
      (InitLogger w fs st filename).2.1 level msg callers fs.nextHandle n
      (init_logger_eq w fs st filename hm ho) hn
  · intro level msg callers hw
    exact Log_content_self w (InitLogger w fs st filename).1
      (InitLogger w fs st filename).2.1 level msg callers fs.nextHandle
      (init_logger_eq w fs st filename hm ho) (init_mem w fs st filename hm ho) hw

/-- Witness for C6: re-initialize on top of the state holding handle 0 and
log once; only handle 1 receives the line. -/
theorem C6_witness :
    (InitLogger w0 fsOpen stOpen "b/g.log").2.2 = none ∧
    (InitLogger w0 fsOpen stOpen "b/g.log").2.1.logFile = some fsOpen.nextHandle ∧
    (InitLogger w0 fsOpen stOpen "b/g.log").2.1.logger = some fsOpen.nextHandle ∧
    fsOpen.nextHandle ≠ 0 ∧
    0 ∈ (InitLogger w0 fsOpen stOpen "b/g.log").1.openh ∧
    (InitLogger w0 fsOpen stOpen "b/g.log").1.handlePath fsOpen.nextHandle = "b/g.log" ∧
    ((Log w0 (InitLogger w0 fsOpen stOpen "b/g.log").1
        (InitLogger w0 fsOpen stOpen "b/g.log").2.1 INFO "m" [cMain, cMain]).content 0 =
      (InitLogger w0 fsOpen stOpen "b/g.log").1.content 0) ∧
    ((Log w0 (InitLogger w0 fsOpen stOpen "b/g.log").1
        (InitLogger w0 fsOpen stOpen "b/g.log").2.1 INFO "m" [cMain, cMain]).content
          fsOpen.nextHandle =
      (InitLogger w0 fsOpen stOpen "b/g.log").1.content fsOpen.nextHandle ++
        renderLine w0 INFO "m" [cMain, cMain] ++ "\n") := by
  have T := C6_handle_replacement w0 fsOpen stOpen 0 "b/g.log" rfl rfl (by decide)
    (by decide) rfl rfl
  exact ⟨T.1, T.2.1, T.2.2.1, T.2.2.2.1, T.2.2.2.2.1, T.2.2.2.2.2.1,
    T.2.2.2.2.2.2.1 INFO "m" [cMain, cMain] 0 (by decide),
    T.2.2.2.2.2.2.2 INFO "m" [cMain, cMain] rfl⟩

/-- Claim C10: when, with a handle held, a second Initialize fails at the
file-open step, the nil result of the failed open overwrites logFile while
logger still targets the previously opened handle; the file system is
untouched, a subsequent Close succeeds as a no-op without closing the
prior handle (which stays open), and logging calls keep appending to
it. -/
theorem C10_failed_reinit (w : World) (fs : FS) (st : LoggerState)
    (h : Nat) (p2 : String)
    (hf : st.logFile = some h) (hl : st.logger = some h) (hmem : h ∈ fs.openh)
    (hmk : w.mkdirFails (filepathDir p2) = false)
    (hop : w.openFails p2 = true) :
    InitLogger w fs st p2 =
      (fs, { logFile := none, logger := some h }, some (GoError.openFailed p2)) ∧
    Close w fs { logFile := none, logger := some h } =
      (fs, { logFile := none, logger := some h }, none) ∧
    h ∈ fs.openh ∧
    (∀ (level : LogLevel) (msg : String) (callers : List Frame),
      w.writeFails h = false →
      (Log w fs { logFile := none, logger := some h } level msg callers).content h =
        fs.content h ++ renderLine w level msg callers ++ "\n") := by
  refine ⟨?_, rfl, hmem, ?_⟩
  · unfold InitLogger
    rw [← hl]
    simp [hmk, hop]
  · intro level msg callers hw
    exact Log_content_self w fs { logFile := none, logger := some h } level msg
      callers h rfl hmem hw

/-- A world in which opening the path "bad.log" fails and everything else
succeeds. -/
def wFail : World :=
  ⟨"2025-01-02 15:04:05", 1234, fun _ => false, fun p => p == "bad.log", fun _ => false⟩

/-- Witness for C10: a failed re-initialization on "bad.log" from the
state holding handle 0, followed by a Close and a logging call. -/
theorem C10_witness :
    InitLogger wFail fsOpen stOpen "bad.log" =
      (fsOpen, { logFile := none, logger := some 0 },
        some (GoError.openFailed "bad.log")) ∧
    Close wFail fsOpen { logFile := none, logger := some 0 } =
      (fsOpen, { logFile := none, logger := some 0 }, none) ∧
    (0 : Nat) ∈ fsOpen.openh ∧
    (Log wFail fsOpen { logFile := none, logger := some 0 } INFO "m"
        [cMain, cMain]).content 0 =
      fsOpen.content 0 ++ renderLine wFail INFO "m" [cMain, cMain] ++ "\n" := by
  have T := C10_failed_reinit wFail fsOpen stOpen 0 "bad.log" rfl rfl (by decide)
    rfl rfl
  exact ⟨T.1, T.2.1, T.2.2.1, T.2.2.2 INFO "m" [cMain, cMain] rfl⟩

end Logger
